import Mathlib

/-!
Verification development for the DeepIM observation aggregator
(`src/deepim.py` of SS-Replan): a shallow embedding of the module's data
model and operations, and theorems settling the frozen claims about it.

Modelling conventions:
* ROS times and float durations are modelled as rationals (`ℚ`); the only
  float constants involved (`5.0`, `0.5`, `0.6`) and the integer lengths
  they are compared against are exact in both models.
* `self.observations` is a `defaultdict(list)`: we model it as a total map
  from keys to lists defaulting to `[]` (reading a missing key observably
  behaves as the empty buffer).
* `float('inf')` (the `INF` sentinel of `last_detected`) is modelled as
  `none`; `np.mean` of an empty list yields NaN, likewise modelled `none`.
* The external pybullet metrics `get_distance` and `quat_angle_between`,
  and the pose conversion `pose_from_tform ∘ make_pose_from_pose_msg`, are
  parameters of the embedding: none of the gated control flow depends on
  their values.
* Interactions with the external tracking registry
  (`administrator.activate()`, `entity.detect()`) are modelled as an
  explicit trace of `RegistryCall`s returned by `detect`; a failing
  `assert` is modelled as the `assertionError` outcome.
-/

/-- A position, as pybullet's `point_from_pose` returns it. -/
abbrev Point : Type := ℚ × ℚ × ℚ

/-- A quaternion, as pybullet's `quat_from_pose` returns it. -/
abbrev Quat : Type := ℚ × ℚ × ℚ × ℚ

/-- A pybullet pose: position and orientation. -/
abbrev Pose : Type := Point × Quat

/-- `geometry_msgs.msg.PoseStamped`, reduced to the fields the module reads:
`header.frame_id`, `header.stamp` (seconds, as `ℚ`) and the pose payload. -/
structure PoseStamped where
  frame_id : String
  stamp : ℚ
  pose : Pose
  deriving DecidableEq

/-- `RIGHT = 'right'` -/
def RIGHT : String := "right"

/-- `LEFT = 'left'` -/
def LEFT : String := "left"

/-- `SIDES = [RIGHT, LEFT]` -/
def SIDES : List String := [RIGHT, LEFT]

/-- `DETECTIONS_PER_SEC = 0.6` -/
def DETECTIONS_PER_SEC : ℚ := 6 / 10

/-- `itertools.combinations(l, 2)`: the pairs `(l[i], l[j])` with `i < j`. -/
def combinations2 {α : Type} : List α → List (α × α)
  | [] => []
  | x :: xs => (xs.map fun y => (x, y)) ++ combinations2 xs

/-- `np.mean` on a list of numbers; `none` models the NaN it produces on an
empty input. -/
def np_mean (l : List ℚ) : Option ℚ :=
  if l.isEmpty then none else some (l.sum / (l.length : ℚ))

/-- pybullet's `point_from_pose`. -/
def point_from_pose (p : Pose) : Point := p.1

/-- pybullet's `quat_from_pose`. -/
def quat_from_pose (p : Pose) : Quat := p.2

/-- `mean_pose_deviation(poses)`, parameterized over the external metrics
`get_distance` (`dist`) and `quat_angle_between` (`qangle`). -/
def mean_pose_deviation (dist : Point → Point → ℚ) (qangle : Quat → Quat → ℚ)
    (poses : List Pose) : Option ℚ × Option ℚ :=
  let points := poses.map point_from_pose
  let pos_deviation := np_mean ((combinations2 points).map fun pr => dist pr.1 pr.2)
  let quats := poses.map quat_from_pose
  let ori_deviation := np_mean ((combinations2 quats).map fun pr => qangle pr.1 pr.2)
  (pos_deviation, ori_deviation)

/-- The observable state of a `DeepIM` instance: the configured sides and
object types (`self.sides`, `self.obj_types`) and `self.observations`, a
`defaultdict(list)` keyed by `(side, obj_type)` modelled as a total map
defaulting to `[]`.  The `domain`, `tf_listener` and `subscribers` fields
are handles to external collaborators; registry interactions appear as the
call trace `detect` returns. -/
structure DeepIM where
  sides : List String
  obj_types : List String
  observations : String × String → List PoseStamped

/-- The state `__init__` leaves behind: every buffer empty. -/
def DeepIM.init (sides obj_types : List String) : DeepIM :=
  ⟨sides, obj_types, fun _ => []⟩

/-- `self.observations[side, obj_type].append(pose_stamped)`. -/
def appendObs (s : DeepIM) (side obj_type : String) (ps : PoseStamped) : DeepIM :=
  { s with observations := fun k =>
      if k = (side, obj_type) then s.observations k ++ [ps] else s.observations k }

/-- `DeepIM.callback`. `cameraPfx` stands for the configured `CAMERA_PREFIX`
constant (imported from `src.issac`, a configuration value this module only
compares against). -/
def DeepIM.callback (cameraPfx : String) (s : DeepIM) (pose_stamped : PoseStamped)
    (side obj_type : String) : DeepIM :=
  if !(pose_stamped.frame_id.startsWith cameraPfx) then s
  else appendObs s side obj_type pose_stamped

/-- `DeepIM.last_detected`; `now` models `rospy.Time.now()` and `none` models
the `INF` sentinel. -/
def DeepIM.last_detected (s : DeepIM) (now : ℚ) (side obj_type : String) : Option ℚ :=
  match (s.observations (side, obj_type)).getLast? with
  | none => none
  | some pose_stamped => some (now - pose_stamped.stamp)

/-- The loop body of `get_recent_observations`: scan a list (already reversed,
newest first), stop at the first entry older than `dur`. -/
def gro_scan (now dur : ℚ) : List PoseStamped → List PoseStamped
  | [] => []
  | pose_stamped :: rest =>
      if dur < now - pose_stamped.stamp then []
      else pose_stamped :: gro_scan now dur rest

/-- `DeepIM.get_recent_observations`; `now` models `rospy.Time.now()`. -/
def DeepIM.get_recent_observations (s : DeepIM) (now : ℚ) (side obj_type : String)
    (duration : ℚ) : List PoseStamped :=
  gro_scan now duration ((s.observations (side, obj_type)).reverse)

/-- The outcome of one `detect` call: `return False`, `return True`, or an
`AssertionError` escaping the call. -/
inductive DetectResult where
  | rejected
  | activated
  | assertionError
  deriving DecidableEq

/-- One call issued to the external tracking registry during `detect`. -/
inductive RegistryCall where
  | activate (obj_type : String)
  | detectOnce (obj_type : String)
  deriving DecidableEq

/-- `DeepIM.detect`.  Returns the outcome, the trace of registry calls issued
(in order), and the observation store after the call (the method only reads
it).  `conv` stands for `pose_from_tform ∘ make_pose_from_pose_msg`.  The
number of distinct frames in `detections_from_frame` is the number of
distinct `frame_id`s among the windowed observations; `assert`ing it equals
one either lets the call proceed or aborts it with `assertionError`.  The
deviations are computed (and printed) but never gate the outcome. -/
def DeepIM.detect (conv : PoseStamped → Pose) (dist : Point → Point → ℚ)
    (qangle : Quat → Quat → ℚ) (s : DeepIM) (now : ℚ) (obj_type : String) :
    DetectResult × List RegistryCall × ((String × String) → List PoseStamped) :=
  let duration : ℚ := 5
  let expected_detections := duration * DETECTIONS_PER_SEC
  let observations := DeepIM.get_recent_observations s now RIGHT obj_type duration
  if ((observations.length : ℚ)) < (1 / 2) * expected_detections then
    (DetectResult.rejected, [], s.observations)
  else
    if ((observations.map PoseStamped.frame_id).dedup).length = 1 then
      let poses := observations.map conv
      let _devs := mean_pose_deviation dist qangle poses
      (DetectResult.activated,
        [RegistryCall.activate obj_type, RegistryCall.detectOnce obj_type],
        s.observations)
    else
      (DetectResult.assertionError, [], s.observations)

/-- Rendering of the SPEC's wording for claim C5: "the window is evaluated
against one designated primary viewpoint's buffer (the first configured
viewpoint)".  Identical to `DeepIM.detect` except that the queried side is
`s.sides.headD RIGHT` — the first viewpoint passed at construction — instead
of the module constant `RIGHT`. -/
def DeepIM.detectSpecFirstViewpoint (conv : PoseStamped → Pose)
    (dist : Point → Point → ℚ) (qangle : Quat → Quat → ℚ) (s : DeepIM) (now : ℚ)
    (obj_type : String) :
    DetectResult × List RegistryCall × ((String × String) → List PoseStamped) :=
  let duration : ℚ := 5
  let expected_detections := duration * DETECTIONS_PER_SEC
  let observations :=
    DeepIM.get_recent_observations s now (s.sides.headD RIGHT) obj_type duration
  if ((observations.length : ℚ)) < (1 / 2) * expected_detections then
    (DetectResult.rejected, [], s.observations)
  else
    if ((observations.map PoseStamped.frame_id).dedup).length = 1 then
      let poses := observations.map conv
      let _devs := mean_pose_deviation dist qangle poses
      (DetectResult.activated,
        [RegistryCall.activate obj_type, RegistryCall.detectOnce obj_type],
        s.observations)
    else
      (DetectResult.assertionError, [], s.observations)

/-- A fixed pose used in concrete states. -/
def pose0 : Pose := ((0, 0, 0), (0, 0, 0, 1))

/-- A second fixed pose, distinct from `pose0`. -/
def pose1 : Pose := ((1, 0, 0), (0, 0, 0, 1))

/-- A concrete stand-in for the external pose conversion. -/
def conv0 : PoseStamped → Pose := fun ps => ps.pose

/-- A concrete stand-in for pybullet's `get_distance`. -/
def dist0 : Point → Point → ℚ := fun _ _ => 0

/-- A concrete stand-in for pybullet's `quat_angle_between`. -/
def qangle0 : Quat → Quat → ℚ := fun _ _ => 0

/-- Claim C3: the claim states `mean_pose_deviation` of a single pose returns
deviations (0, 0); in fact both pairwise lists are empty and `np.mean` of an
empty list is NaN (`none`), so the result at this concrete input is
`(none, none)`, not `(some 0, some 0)`. -/
theorem mean_pose_deviation_single_pose_not_zero :
    mean_pose_deviation dist0 qangle0 [pose0] = (none, none) ∧
      mean_pose_deviation dist0 qangle0 [pose0] ≠ (some 0, some 0) := by
  exact ⟨rfl, by decide⟩

/-- Claim C3 (amended): for every choice of the external metrics and every
single pose, `mean_pose_deviation` has no pairs to average, `np.mean` sees an
empty list, and the result is `(NaN, NaN)` — modelled `(none, none)` — rather
than `(0, 0)`. -/
theorem mean_pose_deviation_single_pose_nan (dist : Point → Point → ℚ)
    (qangle : Quat → Quat → ℚ) (p : Pose) :
    mean_pose_deviation dist qangle [p] = (none, none) := rfl

/-- Claim C1: when the recent 5-second window on the `RIGHT` buffer holds
strictly fewer than `0.5 * (5 * 0.6)` observations, `detect` returns
`Rejected` (`False`), issues no registry call, and leaves the observation
store exactly as it was. -/
theorem detect_insufficient_evidence_rejects (conv : PoseStamped → Pose)
    (dist : Point → Point → ℚ) (qangle : Quat → Quat → ℚ) (s : DeepIM) (now : ℚ)
    (obj_type : String)
    (h : ((DeepIM.get_recent_observations s now RIGHT obj_type 5).length : ℚ) <
      (1 / 2) * (5 * DETECTIONS_PER_SEC)) :
    DeepIM.detect conv dist qangle s now obj_type =
      (DetectResult.rejected, [], s.observations) := by
  simp only [DeepIM.detect]
  rw [if_pos h]

/-- Claim C1 witness: on a freshly constructed instance (every buffer empty)
the window is empty and `detect` rejects with no registry call and an
unchanged store. -/
theorem detect_insufficient_evidence_rejects_witness :
    DeepIM.detect conv0 dist0 qangle0 (DeepIM.init SIDES ["potted_meat_can"]) 0
        "potted_meat_can" =
      (DetectResult.rejected, [],
        (DeepIM.init SIDES ["potted_meat_can"]).observations) :=
  detect_insufficient_evidence_rejects conv0 dist0 qangle0
    (DeepIM.init SIDES ["potted_meat_can"]) 0 "potted_meat_can"
    (by norm_num [DeepIM.get_recent_observations, DeepIM.init, gro_scan,
      DETECTIONS_PER_SEC])

/-- Soundness of the backward scan: every entry it keeps has age at most
`dur`. -/
theorem gro_scan_age_le (now dur : ℚ) :
    ∀ l, ∀ o ∈ gro_scan now dur l, now - o.stamp ≤ dur := by
  intro l
  induction l with
  | nil => intro o ho; simp [gro_scan] at ho
  | cons x xs ih =>
      intro o ho
      rw [gro_scan] at ho
      by_cases hx : dur < now - x.stamp
      · rw [if_pos hx] at ho; simp at ho
      · rw [if_neg hx] at ho
        rcases List.mem_cons.mp ho with h1 | h2
        · subst h1; exact le_of_not_lt hx
        · exact ih o h2

/-- The backward scan only returns entries of the list it scans. -/
theorem gro_scan_subset (now dur : ℚ) :
    ∀ l, ∀ o ∈ gro_scan now dur l, o ∈ l := by
  intro l
  induction l with
  | nil => intro o ho; simp [gro_scan] at ho
  | cons x xs ih =>
      intro o ho
      rw [gro_scan] at ho
      by_cases hx : dur < now - x.stamp
      · rw [if_pos hx] at ho; simp at ho
      · rw [if_neg hx] at ho
        rcases List.mem_cons.mp ho with h1 | h2
        · subst h1; exact List.mem_cons_self o xs
        · exact List.mem_cons_of_mem x (ih o h2)

/-- In a transitive chain, the head is related to every later element. -/
theorem chain_rel_of_mem {α : Type} {r : α → α → Prop} (htr : Transitive r) :
    ∀ (x : α) (xs : List α), List.Chain r x xs → ∀ y ∈ xs, r x y := by
  intro x xs
  induction xs generalizing x with
  | nil => intro _ y hy; simp at hy
  | cons z zs ih =>
      intro hch y hy
      rcases List.chain_cons.mp hch with ⟨hxz, hzzs⟩
      rcases List.mem_cons.mp hy with h1 | h2
      · subst h1; exact hxz
      · exact htr hxz (ih z hzzs y h2)

/-- Completeness of the backward scan on a list whose stamps are
non-increasing (the reverse of a non-decreasing buffer): stopping at the
first too-old entry skips no young entry. -/
theorem gro_scan_complete (now dur : ℚ) :
    ∀ l, List.Chain' (fun a b : PoseStamped => b.stamp ≤ a.stamp) l →
      ∀ o ∈ l, now - o.stamp ≤ dur → o ∈ gro_scan now dur l := by
  intro l
  induction l with
  | nil => intro _ o ho; simp at ho
  | cons x xs ih =>
      intro hch o ho hage
      have hc : List.Chain (fun a b : PoseStamped => b.stamp ≤ a.stamp) x xs := hch
      rw [gro_scan]
      by_cases hx : dur < now - x.stamp
      · exfalso
        rcases List.mem_cons.mp ho with h1 | h2
        · subst h1; exact absurd hage (not_le.mpr hx)
        · have hst : o.stamp ≤ x.stamp := by
            have htr : Transitive (fun a b : PoseStamped => b.stamp ≤ a.stamp) :=
              fun a b c hab hbc => le_trans hbc hab
            exact chain_rel_of_mem htr x xs hc o h2
          have : now - x.stamp ≤ now - o.stamp := by linarith
          exact absurd hage (not_le.mpr (lt_of_lt_of_le hx this))
      · rw [if_neg hx]
        rcases List.mem_cons.mp ho with h1 | h2
        · subst h1; exact List.mem_cons_self o _
        · exact List.mem_cons_of_mem x (ih hch.tail o h2 hage)

/-- An observation with timestamp 10 (fresh at clock 10). -/
def obsFresh : PoseStamped := ⟨"kinect1", 10, pose0⟩

/-- An observation with timestamp 0 (stale at clock 10). -/
def obsStale : PoseStamped := ⟨"kinect1", 0, pose0⟩

/-- A state whose `RIGHT` buffer violates the non-decreasing-timestamp
invariant: the stale entry was appended after the fresh one. -/
def sUnsorted : DeepIM :=
  ⟨SIDES, ["potted_meat_can"],
    fun k => if k = (RIGHT, "potted_meat_can") then [obsFresh, obsStale] else []⟩

/-- Claim C2 counterexample: over arbitrary buffer contents the window query
is not complete.  At clock 10 with duration 5, the buffer
`[obsFresh, obsStale]` (timestamps 10 then 0, out of order) makes the
backward scan stop at the stale tail entry, so `obsFresh` — age 0 ≤ 5 —
is omitted and the query returns `[]`. -/
theorem recent_window_incomplete_on_unsorted_buffer :
    obsFresh ∈ sUnsorted.observations (RIGHT, "potted_meat_can") ∧
      (10 : ℚ) - obsFresh.stamp ≤ 5 ∧
      obsFresh ∉ DeepIM.get_recent_observations sUnsorted 10 RIGHT
        "potted_meat_can" 5 := by
  refine ⟨by simp [sUnsorted], by norm_num [obsFresh], ?_⟩
  simp [DeepIM.get_recent_observations, sUnsorted, gro_scan, obsFresh, obsStale]
  norm_num

/-- Claim C2 (amended): for every key and duration ≥ 0, and every buffer
satisfying the documented invariant that timestamps are non-decreasing in
append order, the recent-window query is sound (every returned observation
has age ≤ duration) and complete (every buffered observation of age ≤
duration is returned), despite scanning backward and stopping at the first
too-old entry. -/
theorem recent_window_sound_complete_of_monotone (s : DeepIM) (now : ℚ)
    (side obj_type : String) (duration : ℚ) (_hdur : 0 ≤ duration)
    (hmono : List.Chain' (fun a b : PoseStamped => a.stamp ≤ b.stamp)
      (s.observations (side, obj_type))) :
    (∀ o ∈ DeepIM.get_recent_observations s now side obj_type duration,
        now - o.stamp ≤ duration) ∧
      (∀ o ∈ s.observations (side, obj_type), now - o.stamp ≤ duration →
        o ∈ DeepIM.get_recent_observations s now side obj_type duration) := by
  constructor
  · intro o ho
    exact gro_scan_age_le now duration _ o ho
  · intro o ho hage
    have hrev : List.Chain' (fun a b : PoseStamped => b.stamp ≤ a.stamp)
        ((s.observations (side, obj_type)).reverse) := by
      rw [List.chain'_reverse]
      exact hmono
    exact gro_scan_complete now duration _ hrev o (List.mem_reverse.mpr ho) hage

/-- An observation with timestamp 1. -/
def obsOld : PoseStamped := ⟨"kinect1", 1, pose0⟩

/-- An observation with timestamp 3. -/
def obsNew : PoseStamped := ⟨"kinect1", 3, pose0⟩

/-- A state whose `RIGHT` buffer respects the non-decreasing-timestamp
invariant. -/
def sSorted : DeepIM :=
  ⟨SIDES, ["potted_meat_can"],
    fun k => if k = (RIGHT, "potted_meat_can") then [obsOld, obsNew] else []⟩

/-- Claim C2 witness: on the monotone two-entry buffer at clock 4 with
duration 5, completeness puts `obsNew` (age 1) in the returned window. -/
theorem recent_window_sound_complete_of_monotone_witness :
    obsNew ∈ DeepIM.get_recent_observations sSorted 4 RIGHT "potted_meat_can" 5 :=
  (recent_window_sound_complete_of_monotone sSorted 4 RIGHT "potted_meat_can" 5
    (by norm_num)
    (by simp [sSorted, obsOld, obsNew])).2 obsNew
    (by simp [sSorted]) (by norm_num [obsNew])

/-- An observation stamped 5 (age 0 at clock 5). -/
def obsNowA : PoseStamped := ⟨"kinect1", 5, pose0⟩

/-- A second, distinct observation also stamped 5. -/
def obsNowB : PoseStamped := ⟨"kinect1", 5, pose1⟩

/-- A state whose `RIGHT` buffer holds two observations stamped at the query
clock. -/
def sTwoAtNow : DeepIM :=
  ⟨SIDES, ["potted_meat_can"],
    fun k => if k = (RIGHT, "potted_meat_can") then [obsNowA, obsNowB] else []⟩

/-- Claim C9 counterexample: with duration 0 at clock 5, a buffer holding two
observations both stamped 5 makes the query return both of them — the claim's
"never returns more than one observation" fails. -/
theorem recent_window_zero_duration_two_results :
    (DeepIM.get_recent_observations sTwoAtNow 5 RIGHT "potted_meat_can" 0).length
      = 2 := by
  simp [DeepIM.get_recent_observations, sTwoAtNow, gro_scan, obsNowA, obsNowB]

/-- Claim C9 (amended): when no buffered timestamp exceeds the query clock,
every observation returned by the zero-duration query has age exactly 0
(timestamp equal to the clock); the query returns the maximal run of
clock-stamped entries at the tail, which can hold more than one
observation. -/
theorem recent_window_zero_duration_age_zero (s : DeepIM) (now : ℚ)
    (side obj_type : String)
    (h : ∀ o ∈ s.observations (side, obj_type), o.stamp ≤ now) :
    ∀ o ∈ DeepIM.get_recent_observations s now side obj_type 0, o.stamp = now := by
  intro o ho
  have h1 : now - o.stamp ≤ 0 := gro_scan_age_le now 0 _ o ho
  have h2 : o.stamp ≤ now := by
    have hmem : o ∈ (s.observations (side, obj_type)).reverse :=
      gro_scan_subset now 0 _ o ho
    exact h o (List.mem_reverse.mp hmem)
  linarith

/-- Claim C9 witness: at clock 5 on the two-entry clock-stamped buffer, the
amended theorem pins the returned entry `obsNowA` to timestamp 5. -/
theorem recent_window_zero_duration_age_zero_witness : obsNowA.stamp = 5 :=
  recent_window_zero_duration_age_zero sTwoAtNow 5 RIGHT "potted_meat_can"
    (by intro o ho; simp [sTwoAtNow] at ho; rcases ho with h | h <;>
      simp [h, obsNowA, obsNowB])
    obsNowA
    (by simp [DeepIM.get_recent_observations, sTwoAtNow, gro_scan, obsNowA, obsNowB])

/-- Any list is the reverse of the dropped part plus the reverse of the kept
part of a `takeWhile`/`dropWhile` split of its reverse. -/
theorem reverse_decomp {α : Type} (p : α → Bool) (l : List α) :
    l = (l.reverse.dropWhile p).reverse ++ (l.reverse.takeWhile p).reverse := by
  have h : l.reverse.takeWhile p ++ l.reverse.dropWhile p = l.reverse :=
    List.takeWhile_append_dropWhile p l.reverse
  calc l = l.reverse.reverse := (List.reverse_reverse l).symm
  _ = (l.reverse.takeWhile p ++ l.reverse.dropWhile p).reverse := by rw [h]
  _ = (l.reverse.dropWhile p).reverse ++ (l.reverse.takeWhile p).reverse :=
      List.reverse_append _ _

/-- The backward scan is `takeWhile` of the not-too-old test. -/
theorem gro_scan_eq_takeWhile (now dur : ℚ) (l : List PoseStamped) :
    gro_scan now dur l = l.takeWhile (fun o => !decide (dur < now - o.stamp)) := by
  induction l with
  | nil => rfl
  | cons x xs ih =>
      rw [gro_scan, List.takeWhile_cons]
      by_cases hx : dur < now - x.stamp
      · simp [hx]
      · simp [hx, ih]

/-- Claim C10: the window query returns the reverse of a suffix of the
buffer — the selected entries in reverse append order, the most recently
appended observation first. -/
theorem recent_window_newest_first (s : DeepIM) (now : ℚ)
    (side obj_type : String) (duration : ℚ) :
    ∃ dropped kept, s.observations (side, obj_type) = dropped ++ kept ∧
      DeepIM.get_recent_observations s now side obj_type duration =
        kept.reverse := by
  refine ⟨(((s.observations (side, obj_type)).reverse.dropWhile
      (fun o => !decide (duration < now - o.stamp))).reverse),
    (((s.observations (side, obj_type)).reverse.takeWhile
      (fun o => !decide (duration < now - o.stamp))).reverse), ?_, ?_⟩
  · exact reverse_decomp _ _
  · rw [DeepIM.get_recent_observations, gro_scan_eq_takeWhile,
      List.reverse_reverse]

/-- Claim C7: a message whose declared frame does not start with the
configured camera prefix is dropped: the callback leaves the whole state —
every key's buffer — unchanged, so every staleness query afterwards answers
exactly as before (in particular it stays `INF` on a key with no other
message). -/
theorem callback_drops_foreign_frame (cameraPfx : String) (s : DeepIM)
    (ps : PoseStamped) (side obj_type : String)
    (h : ps.frame_id.startsWith cameraPfx = false) :
    DeepIM.callback cameraPfx s ps side obj_type = s ∧
      (∀ now side2 obj2,
        DeepIM.last_detected (DeepIM.callback cameraPfx s ps side obj_type) now
            side2 obj2 =
          DeepIM.last_detected s now side2 obj2) := by
  have hc : DeepIM.callback cameraPfx s ps side obj_type = s := by
    rw [DeepIM.callback, if_pos]
    rw [h]
    rfl
  exact ⟨hc, fun now side2 obj2 => by rw [hc]⟩

/-- A message stamped in the world frame, a non-sensor origin. -/
def obsWorld : PoseStamped := ⟨"world", 2, pose0⟩

/-- Claim C7 witness: delivering a world-frame message against prefix
`"kinect"` to a fresh instance leaves the state untouched. -/
theorem callback_drops_foreign_frame_witness :
    DeepIM.callback "kinect" (DeepIM.init SIDES ["potted_meat_can"]) obsWorld
        RIGHT "potted_meat_can" =
      DeepIM.init SIDES ["potted_meat_can"] :=
  (callback_drops_foreign_frame "kinect" (DeepIM.init SIDES ["potted_meat_can"])
    obsWorld RIGHT "potted_meat_can" (by decide)).1

/-- Claim C8: `last_detected` answers `INF` (`none`) exactly on an empty
buffer; after appending an observation it answers query-clock minus that
observation's timestamp; and on a freshly constructed instance (a key never
recorded, as a `defaultdict` reads it) it answers `INF` without error. -/
theorem last_detected_characterization (s : DeepIM) (now : ℚ)
    (side obj_type : String) (ps : PoseStamped) (sides obj_types : List String) :
    (DeepIM.last_detected s now side obj_type = none ↔
      s.observations (side, obj_type) = []) ∧
      DeepIM.last_detected (appendObs s side obj_type ps) now side obj_type =
        some (now - ps.stamp) ∧
      DeepIM.last_detected (DeepIM.init sides obj_types) now side obj_type
        = none := by
  refine ⟨?_, ?_, rfl⟩
  · rw [DeepIM.last_detected]
    cases hbuf : (s.observations (side, obj_type)).getLast? with
    | none =>
        simp only [List.getLast?_eq_none_iff] at hbuf
        simp [hbuf]
    | some q =>
        have hne : s.observations (side, obj_type) ≠ [] := by
          intro hnil
          rw [hnil] at hbuf
          simp at hbuf
        simp [hne]
  · simp [DeepIM.last_detected, appendObs, List.getLast?_concat]

/-- An observation from frame `kinect1` stamped 3. -/
def obsK1a : PoseStamped := ⟨"kinect1", 3, pose0⟩

/-- An observation from frame `kinect1` stamped 4. -/
def obsK1b : PoseStamped := ⟨"kinect1", 4, pose0⟩

/-- An observation from frame `kinect1` stamped 5. -/
def obsK1c : PoseStamped := ⟨"kinect1", 5, pose0⟩

/-- An observation from frame `kinect2` stamped 5. -/
def obsK2c : PoseStamped := ⟨"kinect2", 5, pose0⟩

/-- A state whose `RIGHT` buffer holds three recent observations, all from
frame `kinect1`. -/
def sOneFrame : DeepIM :=
  ⟨SIDES, ["potted_meat_can"],
    fun k => if k = (RIGHT, "potted_meat_can") then [obsK1a, obsK1b, obsK1c]
      else []⟩

/-- A state whose `RIGHT` buffer holds three recent observations split across
frames `kinect1` and `kinect2`. -/
def sTwoFrames : DeepIM :=
  ⟨SIDES, ["potted_meat_can"],
    fun k => if k = (RIGHT, "potted_meat_can") then [obsK1a, obsK1b, obsK2c]
      else []⟩

/-- Claim C6: whenever the 5-second window holds at least `0.5 * (5 * 0.6)`
observations, all from a single distinct source frame, `detect` returns
`Activated` (`True`) regardless of the deviation values (`dist`, `qangle`
arbitrary) and the registry trace is exactly one `activate` followed by one
one-shot `detect`, with the store unchanged. -/
theorem detect_sufficient_single_frame_activates (conv : PoseStamped → Pose)
    (dist : Point → Point → ℚ) (qangle : Quat → Quat → ℚ) (s : DeepIM) (now : ℚ)
    (obj_type : String)
    (h1 : ¬ ((DeepIM.get_recent_observations s now RIGHT obj_type 5).length : ℚ) <
      (1 / 2) * (5 * DETECTIONS_PER_SEC))
    (h2 : (((DeepIM.get_recent_observations s now RIGHT obj_type 5).map
      PoseStamped.frame_id).dedup).length = 1) :
    DeepIM.detect conv dist qangle s now obj_type =
      (DetectResult.activated,
        [RegistryCall.activate obj_type, RegistryCall.detectOnce obj_type],
        s.observations) := by
  simp only [DeepIM.detect]
  rw [if_neg h1, if_pos h2]

/-- Claim C6 witness: three fresh same-frame observations at clock 5 pass the
1.5-observation threshold and activate: the trace is exactly
`[activate, detectOnce]`. -/
theorem detect_sufficient_single_frame_activates_witness :
    DeepIM.detect conv0 dist0 qangle0 sOneFrame 5 "potted_meat_can" =
      (DetectResult.activated,
        [RegistryCall.activate "potted_meat_can",
          RegistryCall.detectOnce "potted_meat_can"],
        sOneFrame.observations) :=
  detect_sufficient_single_frame_activates conv0 dist0 qangle0 sOneFrame 5
    "potted_meat_can"
    (by norm_num [DeepIM.get_recent_observations, sOneFrame, gro_scan,
      obsK1a, obsK1b, obsK1c, DETECTIONS_PER_SEC])
    (by norm_num [DeepIM.get_recent_observations, sOneFrame, gro_scan,
      obsK1a, obsK1b, obsK1c, List.dedup_cons_of_mem, List.dedup_cons_of_not_mem])

/-- Claim C4 (amended): with the evidence threshold passed but the windowed
observations split across two or more distinct source frames, the
`assert len(detections_from_frame) == 1` fails: the call aborts with an
`AssertionError` (it does not return a `Rejected` value), and no `activate`
or `detect` call reaches the registry, with the store unchanged. -/
theorem detect_ambiguous_frames_asserts (conv : PoseStamped → Pose)
    (dist : Point → Point → ℚ) (qangle : Quat → Quat → ℚ) (s : DeepIM) (now : ℚ)
    (obj_type : String)
    (h1 : ¬ ((DeepIM.get_recent_observations s now RIGHT obj_type 5).length : ℚ) <
      (1 / 2) * (5 * DETECTIONS_PER_SEC))
    (h2 : (((DeepIM.get_recent_observations s now RIGHT obj_type 5).map
      PoseStamped.frame_id).dedup).length ≠ 1) :
    DeepIM.detect conv dist qangle s now obj_type =
      (DetectResult.assertionError, [], s.observations) := by
  simp only [DeepIM.detect]
  rw [if_neg h1, if_neg h2]

/-- Claim C4 counterexample: three recent observations split across
`kinect1` and `kinect2` pass the threshold, and `detect` ends in
`AssertionError` — not in the `Rejected` return the claim states — issuing
no registry call. -/
theorem detect_ambiguous_frames_not_rejected :
    (DeepIM.detect conv0 dist0 qangle0 sTwoFrames 5 "potted_meat_can").1 =
        DetectResult.assertionError ∧
      (DeepIM.detect conv0 dist0 qangle0 sTwoFrames 5 "potted_meat_can").1 ≠
        DetectResult.rejected ∧
      (DeepIM.detect conv0 dist0 qangle0 sTwoFrames 5 "potted_meat_can").2.1
        = [] := by
  have h1 : ¬ ((DeepIM.get_recent_observations sTwoFrames 5 RIGHT
      "potted_meat_can" 5).length : ℚ) < (1 / 2) * (5 * DETECTIONS_PER_SEC) := by
    norm_num [DeepIM.get_recent_observations, sTwoFrames, gro_scan,
      obsK1a, obsK1b, obsK2c, DETECTIONS_PER_SEC]
  have h2 : (((DeepIM.get_recent_observations sTwoFrames 5 RIGHT
      "potted_meat_can" 5).map PoseStamped.frame_id).dedup).length ≠ 1 := by
    norm_num [DeepIM.get_recent_observations, sTwoFrames, gro_scan,
      obsK1a, obsK1b, obsK2c]
    simp [List.dedup_cons_of_mem, List.dedup_cons_of_not_mem]
  have h : DeepIM.detect conv0 dist0 qangle0 sTwoFrames 5 "potted_meat_can" =
      (DetectResult.assertionError, [], sTwoFrames.observations) := by
    simp only [DeepIM.detect]
    rw [if_neg h1, if_neg h2]
  rw [h]
  exact ⟨rfl, by decide, rfl⟩

/-- Claim C4 witness: the amended theorem applied to the concrete
two-frame state. -/
theorem detect_ambiguous_frames_asserts_witness :
    DeepIM.detect conv0 dist0 qangle0 sTwoFrames 5 "potted_meat_can" =
      (DetectResult.assertionError, [], sTwoFrames.observations) :=
  detect_ambiguous_frames_asserts conv0 dist0 qangle0 sTwoFrames 5
    "potted_meat_can"
    (by norm_num [DeepIM.get_recent_observations, sTwoFrames, gro_scan,
      obsK1a, obsK1b, obsK2c, DETECTIONS_PER_SEC])
    (by norm_num [DeepIM.get_recent_observations, sTwoFrames, gro_scan,
      obsK1a, obsK1b, obsK2c]
        simp [List.dedup_cons_of_mem, List.dedup_cons_of_not_mem])

/-- A state constructed with `LEFT` as its first (and only) configured
viewpoint, whose `LEFT` buffer holds three recent same-frame observations
while the `RIGHT` buffer is empty. -/
def sLeftOnly : DeepIM :=
  ⟨[LEFT], ["potted_meat_can"],
    fun k => if k = (LEFT, "potted_meat_can") then [obsK1a, obsK1b, obsK1c]
      else []⟩

/-- Claim C5 counterexample: on a configuration whose first viewpoint is
`LEFT`, with ample evidence in the `LEFT` buffer, the code's `detect` reads
the module constant `RIGHT`'s (empty) buffer and rejects, while the spec's
"first configured viewpoint" evaluation activates: `detect` does not
evaluate the first configured viewpoint. -/
theorem detect_ignores_first_configured_viewpoint :
    (DeepIM.detect conv0 dist0 qangle0 sLeftOnly 5 "potted_meat_can").1 =
        DetectResult.rejected ∧
      (DeepIM.detectSpecFirstViewpoint conv0 dist0 qangle0 sLeftOnly 5
          "potted_meat_can").1 = DetectResult.activated := by
  constructor
  · have h1 : ((DeepIM.get_recent_observations sLeftOnly 5 RIGHT
        "potted_meat_can" 5).length : ℚ) < (1 / 2) * (5 * DETECTIONS_PER_SEC) := by
      norm_num [DeepIM.get_recent_observations, sLeftOnly, gro_scan,
        RIGHT, LEFT, DETECTIONS_PER_SEC]
    simp only [DeepIM.detect]
    rw [if_pos h1]
  · have h1 : ¬ ((DeepIM.get_recent_observations sLeftOnly 5
        (sLeftOnly.sides.headD RIGHT) "potted_meat_can" 5).length : ℚ) <
        (1 / 2) * (5 * DETECTIONS_PER_SEC) := by
      norm_num [DeepIM.get_recent_observations, sLeftOnly, gro_scan,
        obsK1a, obsK1b, obsK1c, DETECTIONS_PER_SEC]
    have h2 : (((DeepIM.get_recent_observations sLeftOnly 5
        (sLeftOnly.sides.headD RIGHT) "potted_meat_can" 5).map
        PoseStamped.frame_id).dedup).length = 1 := by
      norm_num [DeepIM.get_recent_observations, sLeftOnly, gro_scan,
        obsK1a, obsK1b, obsK1c, List.dedup_cons_of_mem,
        List.dedup_cons_of_not_mem]
    simp only [DeepIM.detectSpecFirstViewpoint]
    rw [if_neg h1, if_pos h2]

/-- Claim C5 (amended): `detect` evaluates the trailing window against the
buffer of the fixed viewpoint `RIGHT` (the first element of the module
constant `SIDES`), whatever viewpoints were configured, and never merges
buffers: its outcome and registry trace depend on the observation store only
through the `(RIGHT, obj_type)` buffer. -/
theorem detect_depends_only_on_right_buffer (conv : PoseStamped → Pose)
    (dist : Point → Point → ℚ) (qangle : Quat → Quat → ℚ) (s s2 : DeepIM)
    (now : ℚ) (obj_type : String)
    (h : s.observations (RIGHT, obj_type) = s2.observations (RIGHT, obj_type)) :
    (DeepIM.detect conv dist qangle s now obj_type).1 =
        (DeepIM.detect conv dist qangle s2 now obj_type).1 ∧
      (DeepIM.detect conv dist qangle s now obj_type).2.1 =
        (DeepIM.detect conv dist qangle s2 now obj_type).2.1 := by
  have hgro : DeepIM.get_recent_observations s now RIGHT obj_type 5 =
      DeepIM.get_recent_observations s2 now RIGHT obj_type 5 := by
    rw [DeepIM.get_recent_observations, DeepIM.get_recent_observations, h]
  simp only [DeepIM.detect, hgro]
  by_cases hc1 : ((DeepIM.get_recent_observations s2 now RIGHT obj_type 5).length
      : ℚ) < (1 / 2) * (5 * DETECTIONS_PER_SEC)
  · rw [if_pos hc1, if_pos hc1]
    exact ⟨rfl, rfl⟩
  · rw [if_neg hc1, if_neg hc1]
    by_cases hc2 : (((DeepIM.get_recent_observations s2 now RIGHT obj_type 5).map
        PoseStamped.frame_id).dedup).length = 1
    · rw [if_pos hc2, if_pos hc2]
      exact ⟨rfl, rfl⟩
    · rw [if_neg hc2, if_neg hc2]
      exact ⟨rfl, rfl⟩

/-- Claim C5 witness: a fresh instance and `sLeftOnly` agree on the
`(RIGHT, potted_meat_can)` buffer (both empty), so `detect` answers the same
on both even though their `LEFT` buffers differ. -/
theorem detect_depends_only_on_right_buffer_witness :
    (DeepIM.detect conv0 dist0 qangle0 (DeepIM.init [LEFT] ["potted_meat_can"]) 5
          "potted_meat_can").1 =
        (DeepIM.detect conv0 dist0 qangle0 sLeftOnly 5 "potted_meat_can").1 ∧
      (DeepIM.detect conv0 dist0 qangle0 (DeepIM.init [LEFT] ["potted_meat_can"])
          5 "potted_meat_can").2.1 =
        (DeepIM.detect conv0 dist0 qangle0 sLeftOnly 5 "potted_meat_can").2.1 :=
  detect_depends_only_on_right_buffer conv0 dist0 qangle0
    (DeepIM.init [LEFT] ["potted_meat_can"]) sLeftOnly 5 "potted_meat_can"
    (by simp [DeepIM.init, sLeftOnly, RIGHT, LEFT])
